import Mathlib

/-!
Verification of the instruction classification and sequencing engine of the
central controller (`src/arduino_central_maestro/arduino_central_maestro.ino`,
the dominant, orientation-free variant).

Readings are modelled as rationals (`ℚ`): the C code compares `float` readings
against decimal literals with `<=`/`>=` only, and every comparison appearing in
the claims is exact at the rationals involved, so the rational model is faithful.

The C `ActionType` enum is reused as a plain integer by the source (it is cast
from `-1` and `0` and compared with `<= 0`), so actions are modelled as `Int`
with the enum's numeric values.
-/

namespace Tangible

/-- Grid constant from the source: `const int GRID_SIZE = 5`. -/
def GRID_SIZE : Int := 5

/-- Enum value `MOVER_ARRIBA = 1` (move up). -/
def MOVER_ARRIBA : Int := 1

/-- Enum value `MOVER_ABAJO = 2` (move down). -/
def MOVER_ABAJO : Int := 2

/-- Enum value `MOVER_IZQUIERDA = 3` (move left). -/
def MOVER_IZQUIERDA : Int := 3

/-- Enum value `MOVER_DERECHA = 4` (move right). -/
def MOVER_DERECHA : Int := 4

/-- Enum value `BLOQUE_CONTROL = 5` (control block). -/
def BLOQUE_CONTROL : Int := 5

/-- Enum value `NEGACION = 6` (negation modifier). -/
def NEGACION : Int := 6

/-- Enum value `MELODIA_1 = 7` (melody). -/
def MELODIA_1 : Int := 7

/-- The classifier's error result: the source returns `(ActionType)-1` for
non-positive readings (the spec's ERROR instruction). -/
def ACCION_ERROR : Int := -1

/-- The classifier's no-op result: the source returns `(ActionType)0` for
positive readings matching no band (the spec's NONE instruction). -/
def ACCION_NINGUNA : Int := 0

/-- `mapResistanceToAction` from the maestro source, lines 252-274: an
if/else-if chain of inclusive band checks in source order. -/
def mapResistanceToAction (r : ℚ) : Int :=
  if 50 ≤ r ∧ r ≤ 220 then MOVER_ARRIBA
  else if 850 ≤ r ∧ r ≤ 1100 then MOVER_ABAJO
  else if 1500 ≤ r ∧ r ≤ 2500 then MOVER_IZQUIERDA
  else if 3500 ≤ r ∧ r ≤ 4800 then MOVER_DERECHA
  else if 9000 ≤ r ∧ r ≤ 11000 then BLOQUE_CONTROL
  else if 19000 ≤ r ∧ r ≤ 21000 then NEGACION
  else if 5000 ≤ r ∧ r ≤ 6000 then MELODIA_1
  else if r ≤ 0 then ACCION_ERROR
  else ACCION_NINGUNA

/-- `getInvertedAction` from the maestro source, lines 343-352. -/
def getInvertedAction (a : Int) : Int :=
  if a = MOVER_ARRIBA then MOVER_ABAJO
  else if a = MOVER_ABAJO then MOVER_ARRIBA
  else if a = MOVER_IZQUIERDA then MOVER_DERECHA
  else if a = MOVER_DERECHA then MOVER_IZQUIERDA
  else a

/-- The robot's grid position (`robotX`, `robotY` globals in the source). -/
structure RobotState where
  x : Int
  y : Int
deriving DecidableEq

/-- `isValidPosition` from the maestro source, lines 403-405. -/
def isValidPosition (x y : Int) : Bool :=
  decide (0 ≤ x ∧ x < GRID_SIZE ∧ 0 ≤ y ∧ y < GRID_SIZE)

/-- The proposed next x coordinate computed by `performAction`'s switch:
only MOVER_IZQUIERDA / MOVER_DERECHA touch x. -/
def nextXOf (action : Int) (s : RobotState) : Int :=
  if action = MOVER_IZQUIERDA then s.x - 1
  else if action = MOVER_DERECHA then s.x + 1
  else s.x

/-- The proposed next y coordinate computed by `performAction`'s switch:
only MOVER_ARRIBA / MOVER_ABAJO touch y. -/
def nextYOf (action : Int) (s : RobotState) : Int :=
  if action = MOVER_ARRIBA then s.y + 1
  else if action = MOVER_ABAJO then s.y - 1
  else s.y

/-- The robot-state transition of `performAction` (maestro source, lines
277-340): for a movement action whose proposed position is valid the position
is updated; in every other case the position is left unchanged. -/
def performAction (action : Int) (s : RobotState) : RobotState :=
  if (action = MOVER_ARRIBA ∨ action = MOVER_ABAJO ∨
      action = MOVER_IZQUIERDA ∨ action = MOVER_DERECHA) ∧
     isValidPosition (nextXOf action s) (nextYOf action s) = true then
    ⟨nextXOf action s, nextYOf action s⟩
  else s

/-- Execution state threaded through the sequencer: the robot position, the
ordered list of action codes written to the secondary serial link (the source's
`mySerial.println(action)` at the end of every `performAction` call), and the
local negation flag (`negacionActiva`). -/
structure ExecState where
  robot : RobotState
  trace : List Int
  neg : Bool
deriving DecidableEq

/-- One full `performAction` call: robot-state transition plus the
unconditional `mySerial.println(action)` notification. -/
def performActionCall (action : Int) (st : ExecState) : ExecState :=
  { st with
    robot := performAction action st.robot
    trace := st.trace ++ [action] }

/-- One iteration of the loop in `executeBlockControlLogicInternal` (maestro
source, lines 355-398): skip non-positive readings, unconditionally omit
CONTROL_BLOCK slots, then apply the block's own negation logic. -/
def bloqueSlot (st : ExecState) (r : ℚ) : ExecState :=
  if 0 < r then
    if mapResistanceToAction r = BLOQUE_CONTROL then st
    else if st.neg then
      if mapResistanceToAction r = NEGACION ∨ mapResistanceToAction r = MELODIA_1 ∨
         mapResistanceToAction r ≤ 0 then
        { st with neg := false }
      else
        performActionCall (getInvertedAction (mapResistanceToAction r)) { st with neg := false }
    else if mapResistanceToAction r = NEGACION then { st with neg := true }
    else performActionCall (mapResistanceToAction r) st
  else st

/-- `executeBlockControlLogicInternal`: iterates over `bloqueControl[0..3]`
(only the first four of the five stored readings) with its own fresh negation
flag; the caller's flag is untouched. -/
def executeBlockControlLogicInternal (bloque : Fin 5 → ℚ) (st : ExecState) : ExecState :=
  let b := List.foldl bloqueSlot { robot := st.robot, trace := st.trace, neg := false }
             [bloque 0, bloque 1, bloque 2, bloque 3]
  { robot := b.robot, trace := b.trace, neg := st.neg }

/-- One iteration of the loop in `ejecutarSecuencia` (maestro source, lines
205-249): skip non-positive readings pre-classification; if the negation flag
is pending, clear it and either omit (non-invertible or error/none action) or
dispatch the inverted action; otherwise set the flag on NEGACION, run the
control block on BLOQUE_CONTROL, and dispatch everything else. -/
def ejecutarSlot (bloque : Fin 5 → ℚ) (st : ExecState) (r : ℚ) : ExecState :=
  if 0 < r then
    if st.neg then
      if mapResistanceToAction r = NEGACION ∨ mapResistanceToAction r = BLOQUE_CONTROL ∨
         mapResistanceToAction r = MELODIA_1 ∨ mapResistanceToAction r ≤ 0 then
        { st with neg := false }
      else
        performActionCall (getInvertedAction (mapResistanceToAction r)) { st with neg := false }
    else if mapResistanceToAction r = NEGACION then { st with neg := true }
    else if mapResistanceToAction r = BLOQUE_CONTROL then
      executeBlockControlLogicInternal bloque st
    else performActionCall (mapResistanceToAction r) st
  else st

/-- The initial execution state: robot at the origin, nothing sent, negation
flag reset at the start of each run. -/
def initExec : ExecState := { robot := ⟨0, 0⟩, trace := [], neg := false }

/-- `ejecutarSecuencia`: processes the main-program readings in slot order
starting from the given robot state (globals start at the origin). -/
def ejecutarSecuencia (bloque : Fin 5 → ℚ) (main : List ℚ) : ExecState :=
  List.foldl (ejecutarSlot bloque) initExec main

/-- `copiarArrays` (maestro source, lines 193-202): partitions the consolidated
reading buffer into the 10 main-program slots and the 5 control-block slots
(`bloqueControl[i] = allResistances[10 + i]` for `i < 5`).  The source declares
`allResistances` with 14 elements but fills and reads 15; the buffer is
modelled with the 15 slots the code actually indexes. -/
def copiarArrays (all : Fin 15 → ℚ) : (Fin 10 → ℚ) × (Fin 5 → ℚ) :=
  (fun i => all ⟨i.val, by omega⟩, fun i => all ⟨10 + i.val, by omega⟩)

/-- The grid-bounds invariant on the robot state. -/
def inBounds (s : RobotState) : Prop :=
  0 ≤ s.x ∧ s.x < GRID_SIZE ∧ 0 ≤ s.y ∧ s.y < GRID_SIZE

instance (s : RobotState) : Decidable (inBounds s) := by
  unfold inBounds; infer_instance

/-! ### Helper lemmas shared by the claim theorems -/

theorem performAction_not_move (a : Int) (s : RobotState)
    (h : ¬(a = MOVER_ARRIBA ∨ a = MOVER_ABAJO ∨ a = MOVER_IZQUIERDA ∨ a = MOVER_DERECHA)) :
    performAction a s = s := by
  unfold performAction
  rw [if_neg]
  rintro ⟨hm, -⟩
  exact h hm

theorem performAction_invalid (a : Int) (s : RobotState)
    (h : isValidPosition (nextXOf a s) (nextYOf a s) = false) :
    performAction a s = s := by
  unfold performAction
  rw [if_neg]
  rintro ⟨-, hv⟩
  rw [h] at hv
  exact absurd hv (by decide)

theorem performAction_inBounds (a : Int) (s : RobotState) (h : inBounds s) :
    inBounds (performAction a s) := by
  unfold performAction
  split
  · rename_i hc
    have hv := hc.2
    unfold isValidPosition at hv
    simp only [decide_eq_true_eq] at hv
    exact hv
  · exact h

theorem classify_range (r : ℚ) :
    mapResistanceToAction r = MOVER_ARRIBA ∨ mapResistanceToAction r = MOVER_ABAJO ∨
    mapResistanceToAction r = MOVER_IZQUIERDA ∨ mapResistanceToAction r = MOVER_DERECHA ∨
    mapResistanceToAction r = BLOQUE_CONTROL ∨ mapResistanceToAction r = NEGACION ∨
    mapResistanceToAction r = MELODIA_1 ∨ mapResistanceToAction r = ACCION_ERROR ∨
    mapResistanceToAction r = ACCION_NINGUNA := by
  generalize hA : mapResistanceToAction r = a
  unfold mapResistanceToAction at hA
  split_ifs at hA <;> subst hA <;> decide

/-- The omission test written in the source (`action <= 0` catches both error
codes) coincides, on classifier outputs, with membership in the spec's
non-invertible-or-degenerate set. -/
theorem omit_cond_iff (r : ℚ) :
    (mapResistanceToAction r = NEGACION ∨ mapResistanceToAction r = BLOQUE_CONTROL ∨
     mapResistanceToAction r = MELODIA_1 ∨ mapResistanceToAction r ≤ 0) ↔
    (mapResistanceToAction r = NEGACION ∨ mapResistanceToAction r = BLOQUE_CONTROL ∨
     mapResistanceToAction r = MELODIA_1 ∨ mapResistanceToAction r = ACCION_ERROR ∨
     mapResistanceToAction r = ACCION_NINGUNA) := by
  rcases classify_range r with h | h | h | h | h | h | h | h | h <;> rw [h] <;> decide

theorem classify_bc_band (r : ℚ) (h : mapResistanceToAction r = BLOQUE_CONTROL) :
    9000 ≤ r ∧ r ≤ 11000 := by
  unfold mapResistanceToAction at h
  split_ifs at h with h1 h2 h3 h4 h5 h6 h7 h8
  · exact absurd h (by decide)
  · exact absurd h (by decide)
  · exact absurd h (by decide)
  · exact absurd h (by decide)
  · exact h5
  · exact absurd h (by decide)
  · exact absurd h (by decide)
  · exact absurd h (by decide)
  · exact absurd h (by decide)

theorem bloqueSlot_inBounds (st : ExecState) (r : ℚ) (h : inBounds st.robot) :
    inBounds (bloqueSlot st r).robot := by
  unfold bloqueSlot
  split
  · split
    · exact h
    · split
      · split
        · exact h
        · exact performAction_inBounds _ _ h
      · split
        · exact h
        · exact performAction_inBounds _ _ h
  · exact h

theorem executeBlockControlLogicInternal_inBounds (bloque : Fin 5 → ℚ) (st : ExecState)
    (h : inBounds st.robot) : inBounds (executeBlockControlLogicInternal bloque st).robot := by
  simp only [executeBlockControlLogicInternal, List.foldl]
  exact bloqueSlot_inBounds _ _ (bloqueSlot_inBounds _ _ (bloqueSlot_inBounds _ _
    (bloqueSlot_inBounds _ _ h)))

theorem ejecutarSlot_inBounds (bloque : Fin 5 → ℚ) (st : ExecState) (r : ℚ)
    (h : inBounds st.robot) : inBounds (ejecutarSlot bloque st r).robot := by
  unfold ejecutarSlot
  split
  · split
    · split
      · exact h
      · exact performAction_inBounds _ _ h
    · split
      · exact h
      · split
        · exact executeBlockControlLogicInternal_inBounds bloque st h
        · exact performAction_inBounds _ _ h
  · exact h

theorem scanl_preserves {α β : Type} (f : α → β → α) (P : α → Prop)
    (hf : ∀ a b, P a → P (f a b)) :
    ∀ (l : List β) (a : α), P a → ∀ x ∈ List.scanl f a l, P x := by
  intro l
  induction l with
  | nil =>
    intro a ha x hx
    simp only [List.scanl_nil, List.mem_singleton] at hx
    rwa [hx]
  | cons b l ih =>
    intro a ha x hx
    rw [List.scanl_cons] at hx
    simp only [List.singleton_append, List.mem_cons] at hx
    rcases hx with rfl | hx
    · exact ha
    · exact ih (f a b) (hf a b ha) x hx

theorem bloqueSlot_trace (st : ExecState) (r : ℚ) :
    ∃ u : List Int, (bloqueSlot st r).trace = st.trace ++ u ∧ u.length ≤ 1 := by
  unfold bloqueSlot
  split
  · split
    · exact ⟨[], by simp⟩
    · split
      · split
        · exact ⟨[], by simp⟩
        · exact ⟨[getInvertedAction (mapResistanceToAction r)], rfl, by simp⟩
      · split
        · exact ⟨[], by simp⟩
        · exact ⟨[mapResistanceToAction r], rfl, by simp⟩
  · exact ⟨[], by simp⟩

theorem foldl_bloqueSlot_trace :
    ∀ (l : List ℚ) (s : ExecState),
      ∃ t : List Int, (List.foldl bloqueSlot s l).trace = s.trace ++ t ∧ t.length ≤ l.length := by
  intro l
  induction l with
  | nil => intro s; exact ⟨[], by simp⟩
  | cons a l ih =>
    intro s
    obtain ⟨u, eu, lu⟩ := bloqueSlot_trace s a
    obtain ⟨t, et, ht⟩ := ih (bloqueSlot s a)
    refine ⟨u ++ t, ?_, ?_⟩
    · simp only [List.foldl]
      rw [et, eu, List.append_assoc]
    · simp only [List.length_append, List.length_cons]
      omega

/-! ### Claim theorems -/

/-- C1 (counterexample): the claim says a reading of 189 or 4600 classifies to
NONE, but the dominant variant's classifier maps 189 to MOVE_UP (its first band
is `[50, 220]`, not `[190, 220]`) and 4600 to MOVE_RIGHT (its fourth band is
`[3500, 4800]`, not `[3500, 4500]`). -/
theorem claim1_counterexample :
    mapResistanceToAction 189 = MOVER_ARRIBA ∧ MOVER_ARRIBA ≠ ACCION_NINGUNA ∧
    mapResistanceToAction 4600 = MOVER_DERECHA ∧ MOVER_DERECHA ≠ ACCION_NINGUNA :=
  ⟨by decide, by decide, by decide, by decide⟩

/-- C1 (amended): the classifier implements the code's inclusive bands: readings
in `[50, 220]` classify to MOVE_UP, readings in `[3500, 4800]` classify to
MOVE_RIGHT, any positive reading in none of the seven bands classifies to NONE,
`220.0` classifies to MOVE_UP and `220.01` classifies to NONE. -/
theorem claim1_bands :
    (∀ r : ℚ, 50 ≤ r → r ≤ 220 → mapResistanceToAction r = MOVER_ARRIBA) ∧
    (∀ r : ℚ, 3500 ≤ r → r ≤ 4800 → mapResistanceToAction r = MOVER_DERECHA) ∧
    (∀ r : ℚ, 0 < r →
       ¬(50 ≤ r ∧ r ≤ 220) → ¬(850 ≤ r ∧ r ≤ 1100) → ¬(1500 ≤ r ∧ r ≤ 2500) →
       ¬(3500 ≤ r ∧ r ≤ 4800) → ¬(9000 ≤ r ∧ r ≤ 11000) → ¬(19000 ≤ r ∧ r ≤ 21000) →
       ¬(5000 ≤ r ∧ r ≤ 6000) → mapResistanceToAction r = ACCION_NINGUNA) ∧
    mapResistanceToAction 220 = MOVER_ARRIBA ∧
    mapResistanceToAction 220.01 = ACCION_NINGUNA := by
  refine ⟨?_, ?_, ?_, by decide, by norm_num [mapResistanceToAction]⟩
  · intro r h1 h2
    unfold mapResistanceToAction
    rw [if_pos ⟨h1, h2⟩]
  · intro r h1 h2
    have n1 : ¬(50 ≤ r ∧ r ≤ 220) := by rintro ⟨-, hb⟩; linarith
    have n2 : ¬(850 ≤ r ∧ r ≤ 1100) := by rintro ⟨-, hb⟩; linarith
    have n3 : ¬(1500 ≤ r ∧ r ≤ 2500) := by rintro ⟨-, hb⟩; linarith
    unfold mapResistanceToAction
    rw [if_neg n1, if_neg n2, if_neg n3, if_pos ⟨h1, h2⟩]
  · intro r hp n1 n2 n3 n4 n5 n6 n7
    unfold mapResistanceToAction
    rw [if_neg n1, if_neg n2, if_neg n3, if_neg n4, if_neg n5, if_neg n6, if_neg n7,
      if_neg (not_le.mpr hp)]

/-- C1 witness: the amended band theorem evaluated at the reading 100. -/
theorem claim1_bands_witness :
    (50 : ℚ) ≤ 100 ∧ (100 : ℚ) ≤ 220 ∧ mapResistanceToAction 100 = MOVER_ARRIBA :=
  ⟨by norm_num, by norm_num, claim1_bands.1 100 (by norm_num) (by norm_num)⟩

/-- C2: the grid invariant `0 ≤ x < GRID_SIZE ∧ 0 ≤ y < GRID_SIZE` holds at
every intermediate and final state of any main-program run started at the
origin and of any control-block run started in bounds; a movement whose
proposed position is invalid leaves the position unchanged (silent reject), and
every non-movement action leaves the position unchanged. -/
theorem claim2_grid_invariant :
    (∀ (bloque : Fin 5 → ℚ) (main : List ℚ),
       ∀ st ∈ List.scanl (ejecutarSlot bloque) initExec main, inBounds st.robot) ∧
    (∀ (bloque : Fin 5 → ℚ) (st : ExecState), inBounds st.robot →
       ∀ st' ∈ List.scanl bloqueSlot
           { robot := st.robot, trace := st.trace, neg := false }
           [bloque 0, bloque 1, bloque 2, bloque 3],
         inBounds st'.robot) ∧
    (∀ (a : Int) (s : RobotState),
       isValidPosition (nextXOf a s) (nextYOf a s) = false → performAction a s = s) ∧
    (∀ (a : Int) (s : RobotState),
       ¬(a = MOVER_ARRIBA ∨ a = MOVER_ABAJO ∨ a = MOVER_IZQUIERDA ∨ a = MOVER_DERECHA) →
       performAction a s = s) := by
  refine ⟨?_, ?_, performAction_invalid, performAction_not_move⟩
  · intro bloque main st hmem
    exact scanl_preserves (ejecutarSlot bloque) (fun e => inBounds e.robot)
      (fun a b ha => ejecutarSlot_inBounds bloque a b ha) main initExec (by decide) st hmem
  · intro bloque st h st' hmem
    exact scanl_preserves bloqueSlot (fun e => inBounds e.robot)
      (fun a b ha => bloqueSlot_inBounds a b ha) [bloque 0, bloque 1, bloque 2, bloque 3]
      { robot := st.robot, trace := st.trace, neg := false } h st' hmem

/-- C2 witness: the invariant theorem evaluated on the one-slot program `[215]`
at the initial state. -/
theorem claim2_grid_invariant_witness :
    initExec ∈ List.scanl (ejecutarSlot (fun _ => -1)) initExec [215] ∧
    inBounds initExec.robot :=
  ⟨by decide, claim2_grid_invariant.1 (fun _ => -1) [215] initExec (by decide)⟩

/-- C3: the negation flag is one-shot in the main sequencer: a NEGACION slot
sets it (dispatching nothing), the next processed slot clears it whatever
happens there; at the consuming slot an action in the non-invertible set
{NEGACION, BLOQUE_CONTROL, MELODIA_1, ERROR, NONE} is omitted entirely
(state and trace untouched apart from the cleared flag), and any other action
dispatches its inversion. -/
theorem claim3_negation_oneshot :
    (∀ (bloque : Fin 5 → ℚ) (st : ExecState) (r : ℚ),
       0 < r → st.neg = false → mapResistanceToAction r = NEGACION →
       ejecutarSlot bloque st r = { st with neg := true }) ∧
    (∀ (bloque : Fin 5 → ℚ) (st : ExecState) (r : ℚ),
       0 < r → st.neg = true →
       (ejecutarSlot bloque st r).neg = false ∧
       ((mapResistanceToAction r = NEGACION ∨ mapResistanceToAction r = BLOQUE_CONTROL ∨
         mapResistanceToAction r = MELODIA_1 ∨ mapResistanceToAction r = ACCION_ERROR ∨
         mapResistanceToAction r = ACCION_NINGUNA) →
         ejecutarSlot bloque st r = { st with neg := false }) ∧
       (¬(mapResistanceToAction r = NEGACION ∨ mapResistanceToAction r = BLOQUE_CONTROL ∨
          mapResistanceToAction r = MELODIA_1 ∨ mapResistanceToAction r = ACCION_ERROR ∨
          mapResistanceToAction r = ACCION_NINGUNA) →
         ejecutarSlot bloque st r =
           performActionCall (getInvertedAction (mapResistanceToAction r))
             { st with neg := false })) := by
  constructor
  · intro bloque st r hr hneg hc
    unfold ejecutarSlot
    rw [if_pos hr, hneg, if_neg (by decide : ¬((false : Bool) = true)), if_pos hc]
  · intro bloque st r hr hneg
    have hstep : ejecutarSlot bloque st r =
        if mapResistanceToAction r = NEGACION ∨ mapResistanceToAction r = BLOQUE_CONTROL ∨
           mapResistanceToAction r = MELODIA_1 ∨ mapResistanceToAction r ≤ 0 then
          { st with neg := false }
        else
          performActionCall (getInvertedAction (mapResistanceToAction r))
            { st with neg := false } := by
      unfold ejecutarSlot
      rw [if_pos hr, hneg, if_pos (rfl : (true : Bool) = true)]
    refine ⟨?_, ?_, ?_⟩
    · rw [hstep]
      split
      · rfl
      · rfl
    · intro hset
      rw [hstep, if_pos ((omit_cond_iff r).mpr hset)]
    · intro hnot
      rw [hstep, if_neg fun hc => hnot ((omit_cond_iff r).mp hc)]

/-- C3 witness: the one-shot theorem evaluated at the readings 20000 (sets the
flag) and 215 (consumes it). -/
theorem claim3_negation_oneshot_witness :
    ejecutarSlot (fun _ => -1) initExec 20000 = { initExec with neg := true } ∧
    (ejecutarSlot (fun _ => -1) { robot := ⟨0, 0⟩, trace := [], neg := true } 215).neg = false :=
  ⟨claim3_negation_oneshot.1 (fun _ => -1) initExec 20000 (by norm_num) rfl (by decide),
   (claim3_negation_oneshot.2 (fun _ => -1) _ 215 (by norm_num) rfl).1⟩

/-- C4: inside the control-block sub-sequencer a slot classifying as
BLOQUE_CONTROL is unconditionally omitted (the sub-state is completely
unchanged, so there is no dispatch and no re-entry), and every sub-run
terminates after its four slots: it extends the notification trace by at most
four codes and leaves the caller's negation flag untouched. -/
theorem claim4_block_guard :
    (∀ (st : ExecState) (r : ℚ), mapResistanceToAction r = BLOQUE_CONTROL →
       bloqueSlot st r = st) ∧
    (∀ (bloque : Fin 5 → ℚ) (st : ExecState),
       ∃ t : List Int,
         (executeBlockControlLogicInternal bloque st).trace = st.trace ++ t ∧
         t.length ≤ 4 ∧
         (executeBlockControlLogicInternal bloque st).neg = st.neg) := by
  constructor
  · intro st r h
    have hpos : 0 < r := lt_of_lt_of_le (by norm_num) (classify_bc_band r h).1
    unfold bloqueSlot
    rw [if_pos hpos, if_pos h]
  · intro bloque st
    obtain ⟨t, et, ht⟩ := foldl_bloqueSlot_trace [bloque 0, bloque 1, bloque 2, bloque 3]
      { robot := st.robot, trace := st.trace, neg := false }
    refine ⟨t, et, ?_, rfl⟩
    simpa using ht

/-- C4 witness: the guard theorem evaluated at the reading 10000, which
classifies as BLOQUE_CONTROL. -/
theorem claim4_block_guard_witness :
    mapResistanceToAction 10000 = BLOQUE_CONTROL ∧ bloqueSlot initExec 10000 = initExec :=
  ⟨by decide, claim4_block_guard.1 initExec 10000 (by decide)⟩

/-- C5: the classifier is a pure total deterministic function (every rational
reading maps to exactly one action code), and every non-positive reading maps
to ERROR regardless of magnitude. -/
theorem claim5_classifier_total :
    (∀ r : ℚ, ∃! a : Int, mapResistanceToAction r = a) ∧
    (∀ r : ℚ, r ≤ 0 → mapResistanceToAction r = ACCION_ERROR) := by
  constructor
  · intro r
    exact ⟨mapResistanceToAction r, rfl, fun y hy => hy.symm⟩
  · intro r hr
    have n1 : ¬(50 ≤ r ∧ r ≤ 220) := by rintro ⟨ha, -⟩; linarith
    have n2 : ¬(850 ≤ r ∧ r ≤ 1100) := by rintro ⟨ha, -⟩; linarith
    have n3 : ¬(1500 ≤ r ∧ r ≤ 2500) := by rintro ⟨ha, -⟩; linarith
    have n4 : ¬(3500 ≤ r ∧ r ≤ 4800) := by rintro ⟨ha, -⟩; linarith
    have n5 : ¬(9000 ≤ r ∧ r ≤ 11000) := by rintro ⟨ha, -⟩; linarith
    have n6 : ¬(19000 ≤ r ∧ r ≤ 21000) := by rintro ⟨ha, -⟩; linarith
    have n7 : ¬(5000 ≤ r ∧ r ≤ 6000) := by rintro ⟨ha, -⟩; linarith
    unfold mapResistanceToAction
    rw [if_neg n1, if_neg n2, if_neg n3, if_neg n4, if_neg n5, if_neg n6, if_neg n7, if_pos hr]

/-- C5 witness: the ERROR clause evaluated at the reading -1. -/
theorem claim5_classifier_total_witness :
    (-1 : ℚ) ≤ 0 ∧ mapResistanceToAction (-1) = ACCION_ERROR :=
  ⟨by norm_num, claim5_classifier_total.2 (-1) (by norm_num)⟩

/-- C6: a main-program slot whose raw reading is non-positive is skipped before
classification: the whole execution state — robot position, notification trace
and negation flag — is left untouched. -/
theorem claim6_skip_nonpositive :
    ∀ (bloque : Fin 5 → ℚ) (st : ExecState) (r : ℚ), r ≤ 0 →
      ejecutarSlot bloque st r = st ∧ (ejecutarSlot bloque st r).neg = st.neg := by
  intro bloque st r h
  have he : ejecutarSlot bloque st r = st := by
    unfold ejecutarSlot
    rw [if_neg (not_lt.mpr h)]
  exact ⟨he, by rw [he]⟩

/-- C6 witness: the skip theorem evaluated at the reading -1 from a state with
a pending negation flag, which indeed carries over. -/
theorem claim6_skip_nonpositive_witness :
    (-1 : ℚ) ≤ 0 ∧
    ejecutarSlot (fun _ => -1) { robot := ⟨0, 0⟩, trace := [], neg := true } (-1) =
      { robot := ⟨0, 0⟩, trace := [], neg := true } :=
  ⟨by norm_num,
   (claim6_skip_nonpositive (fun _ => -1) { robot := ⟨0, 0⟩, trace := [], neg := true } (-1)
     (by norm_num)).1⟩

/-- C7 (counterexample): the claim says an out-of-band positive reading is
silently not dispatched, but the code still calls `performAction` for it, and
`performAction` unconditionally emits the action code on the secondary serial
link: the reading 300 classifies to NONE yet produces the notification `0`
(the robot position is indeed unchanged). -/
theorem claim7_counterexample :
    mapResistanceToAction 300 = ACCION_NINGUNA ∧
    (ejecutarSlot (fun _ => -1) initExec 300).trace = [ACCION_NINGUNA] ∧
    [ACCION_NINGUNA] ≠ ([] : List Int) ∧
    (ejecutarSlot (fun _ => -1) initExec 300).robot = initExec.robot :=
  ⟨by decide, by decide, by decide, by decide⟩

/-- C7 (amended): an out-of-band positive reading classifies to NONE and
produces no robot-state change; with no pending negation it is still dispatched
through `performAction`, which emits the code NONE on the secondary link; with
a pending negation it is omitted entirely (only the flag is cleared). -/
theorem claim7_none_dispatch :
    ∀ (bloque : Fin 5 → ℚ) (st : ExecState) (r : ℚ),
      0 < r → mapResistanceToAction r = ACCION_NINGUNA →
      (st.neg = false →
        ejecutarSlot bloque st r = { st with trace := st.trace ++ [ACCION_NINGUNA] }) ∧
      (st.neg = true → ejecutarSlot bloque st r = { st with neg := false }) := by
  intro bloque st r hr hc
  constructor
  · intro hneg
    unfold ejecutarSlot
    rw [if_pos hr, hneg, if_neg (by decide : ¬((false : Bool) = true)), hc,
      if_neg (by decide : ¬(ACCION_NINGUNA = NEGACION)),
      if_neg (by decide : ¬(ACCION_NINGUNA = BLOQUE_CONTROL))]
    unfold performActionCall
    rw [performAction_not_move _ _ (by decide), hneg]
  · intro hneg
    unfold ejecutarSlot
    rw [if_pos hr, hneg, if_pos (rfl : (true : Bool) = true), hc,
      if_pos (by decide : ACCION_NINGUNA = NEGACION ∨ ACCION_NINGUNA = BLOQUE_CONTROL ∨
        ACCION_NINGUNA = MELODIA_1 ∨ ACCION_NINGUNA ≤ 0)]

/-- C7 witness: the amended theorem evaluated at the reading 300 from the
initial state. -/
theorem claim7_none_dispatch_witness :
    ejecutarSlot (fun _ => -1) initExec 300 =
      { initExec with trace := initExec.trace ++ [ACCION_NINGUNA] } :=
  (claim7_none_dispatch (fun _ => -1) initExec 300 (by norm_num) (by decide)).1 rfl

/-- C8: `getInvertedAction` swaps MOVE_UP with MOVE_DOWN and MOVE_LEFT with
MOVE_RIGHT, is an involution on the four movement codes, and is the identity on
every other code. -/
theorem claim8_invert :
    getInvertedAction MOVER_ARRIBA = MOVER_ABAJO ∧
    getInvertedAction MOVER_ABAJO = MOVER_ARRIBA ∧
    getInvertedAction MOVER_IZQUIERDA = MOVER_DERECHA ∧
    getInvertedAction MOVER_DERECHA = MOVER_IZQUIERDA ∧
    (∀ a : Int,
       a = MOVER_ARRIBA ∨ a = MOVER_ABAJO ∨ a = MOVER_IZQUIERDA ∨ a = MOVER_DERECHA →
       getInvertedAction (getInvertedAction a) = a) ∧
    (∀ a : Int,
       ¬(a = MOVER_ARRIBA ∨ a = MOVER_ABAJO ∨ a = MOVER_IZQUIERDA ∨ a = MOVER_DERECHA) →
       getInvertedAction a = a) := by
  refine ⟨by decide, by decide, by decide, by decide, ?_, ?_⟩
  · rintro a (rfl | rfl | rfl | rfl) <;> decide
  · intro a ha
    push_neg at ha
    unfold getInvertedAction
    rw [if_neg ha.1, if_neg ha.2.1, if_neg ha.2.2.1, if_neg ha.2.2.2]

/-- C8 witness: the involution evaluated at MOVE_UP and the identity evaluated
at CONTROL_BLOCK. -/
theorem claim8_invert_witness :
    getInvertedAction (getInvertedAction MOVER_ARRIBA) = MOVER_ARRIBA ∧
    getInvertedAction BLOQUE_CONTROL = BLOQUE_CONTROL :=
  ⟨claim8_invert.2.2.2.2.1 MOVER_ARRIBA (Or.inl rfl),
   claim8_invert.2.2.2.2.2 BLOQUE_CONTROL (by decide)⟩

/-- C9: running the main program `[215, 900, -1, 20000, 215]` from the origin
dispatches MOVE_UP (to (0,1)), then MOVE_DOWN (back to (0,0)), skips the third
slot, sets the negation flag with no dispatch at the fourth, dispatches the
inverted last slot as MOVE_DOWN whose out-of-bounds proposal (0,-1) is
rejected, and ends with the robot at (0,0) — whatever the control block holds. -/
theorem claim9_scenario1 :
    ∀ bloque : Fin 5 → ℚ,
      List.scanl (ejecutarSlot bloque) initExec [215, 900, -1, 20000, 215] =
        [initExec,
         { robot := ⟨0, 1⟩, trace := [MOVER_ARRIBA], neg := false },
         { robot := ⟨0, 0⟩, trace := [MOVER_ARRIBA, MOVER_ABAJO], neg := false },
         { robot := ⟨0, 0⟩, trace := [MOVER_ARRIBA, MOVER_ABAJO], neg := false },
         { robot := ⟨0, 0⟩, trace := [MOVER_ARRIBA, MOVER_ABAJO], neg := true },
         { robot := ⟨0, 0⟩, trace := [MOVER_ARRIBA, MOVER_ABAJO, MOVER_ABAJO], neg := false }] ∧
      ejecutarSecuencia bloque [215, 900, -1, 20000, 215] =
        { robot := ⟨0, 0⟩, trace := [MOVER_ARRIBA, MOVER_ABAJO, MOVER_ABAJO], neg := false } :=
  fun _ => ⟨rfl, rfl⟩

/-- C10: the control-block store holds five readings but the sub-sequencer only
processes indices 0 through 3, so the whole observable outcome — robot state,
notification trace and flag — is independent of the fifth stored reading, both
at the sub-sequencer level and through the full pipeline from the consolidated
15-slot buffer (whose global slot 14 is the fifth control-block reading). -/
theorem claim10_fifth_slot :
    (∀ (b b' : Fin 5 → ℚ), (∀ i : Fin 5, i.val < 4 → b i = b' i) →
       ∀ st : ExecState,
         executeBlockControlLogicInternal b st = executeBlockControlLogicInternal b' st) ∧
    (∀ (all all' : Fin 15 → ℚ), (∀ j : Fin 15, j.val ≠ 14 → all j = all' j) →
       ejecutarSecuencia (copiarArrays all).2 (List.ofFn (copiarArrays all).1) =
         ejecutarSecuencia (copiarArrays all').2 (List.ofFn (copiarArrays all').1)) := by
  have hblock : ∀ (b b' : Fin 5 → ℚ), (∀ i : Fin 5, i.val < 4 → b i = b' i) →
      ∀ st : ExecState,
        executeBlockControlLogicInternal b st = executeBlockControlLogicInternal b' st := by
    intro b b' h st
    have h0 := h 0 (by decide)
    have h1 := h 1 (by decide)
    have h2 := h 2 (by decide)
    have h3 := h 3 (by decide)
    unfold executeBlockControlLogicInternal
    rw [h0, h1, h2, h3]
  have hslot : ∀ (b b' : Fin 5 → ℚ), (∀ i : Fin 5, i.val < 4 → b i = b' i) →
      ∀ (st : ExecState) (r : ℚ), ejecutarSlot b st r = ejecutarSlot b' st r := by
    intro b b' h st r
    unfold ejecutarSlot
    rw [hblock b b' h st]
  have hfold : ∀ (b b' : Fin 5 → ℚ), (∀ i : Fin 5, i.val < 4 → b i = b' i) →
      ∀ (main : List ℚ) (st : ExecState),
        List.foldl (ejecutarSlot b) st main = List.foldl (ejecutarSlot b') st main := by
    intro b b' h main
    induction main with
    | nil => intro st; rfl
    | cons a l ih =>
      intro st
      simp only [List.foldl]
      rw [hslot b b' h st a]
      exact ih _
  refine ⟨hblock, ?_⟩
  intro all all' h
  have hmain : (copiarArrays all).1 = (copiarArrays all').1 := by
    funext i
    exact h ⟨i.val, by have := i.isLt; omega⟩ (by show i.val ≠ 14; have := i.isLt; omega)
  have hb : ∀ i : Fin 5, i.val < 4 → (copiarArrays all).2 i = (copiarArrays all').2 i := by
    intro i hi
    exact h ⟨10 + i.val, by have := i.isLt; omega⟩ (by show 10 + i.val ≠ 14; omega)
  unfold ejecutarSecuencia
  rw [hmain]
  exact hfold _ _ hb _ _

/-- C10 witness: the independence theorem evaluated on two control blocks that
differ only in their fifth reading. -/
theorem claim10_fifth_slot_witness :
    executeBlockControlLogicInternal (fun _ => -1) initExec =
      executeBlockControlLogicInternal (fun i => if i.val < 4 then -1 else 9999) initExec :=
  claim10_fifth_slot.1 (fun _ => -1) (fun i => if i.val < 4 then -1 else 9999) (by decide)
    initExec

end Tangible
